import Mathlib

/-!
# Verification of the Bankin konnector (`src/index.js`)

A shallow embedding of the konnector's logic in Lean 4.

* JavaScript objects used as dictionaries (the `balances` map of a
  balance-history document, the bank lookup table) are modelled as
  association lists with JS assignment semantics: assigning to an existing
  key overwrites its value in place, assigning to a fresh key appends it.
* The wall clock (`moment()` / `new Date()`) is passed explicitly: the
  current year, today's `YYYY-MM-DD` string and the import timestamp are
  parameters of the functions that read the clock in the source.
* The Cozy persistence layer (`cozyClient.data.query`, `updateOrCreate`) is
  modelled as a list of stored documents with an equality-selector query and
  an upsert-by-`_id` operation.
* Network requests are modelled by their result: an `Except` value standing
  for what the `request` library hands back to the caller.
* The `BankingReconciliator` of the `cozy-doctypes` dependency is not part
  of this repository's source; its `save` operation is modelled from the
  spec (see `reconciliatorSave`).
-/

set_option autoImplicit false

namespace Bankin

/-! ## JS objects as association lists -/

/-- JS object assignment `obj[k] = v` on an object modelled as an association
list: an existing key keeps its position and gets the new value, a fresh key
is appended at the end. -/
def objSet {α β : Type} [DecidableEq α] : List (α × β) → α → β → List (α × β)
  | [], k, v => [(k, v)]
  | (k', v') :: rest, k, v =>
    if k' = k then (k, v) :: rest else (k', v') :: objSet rest k v

/-- JS object read `obj[k]` (`none` when the key is absent, as for the
`k in obj` test). -/
def objGet {α β : Type} [DecidableEq α] (l : List (α × β)) (k : α) : Option β :=
  (l.find? (fun p => p.1 = k)).map Prod.snd

/-! ## Balance-history documents (`io.cozy.bank.balancehistories`) -/

/-- The `relationships.account.data` sub-object of a balance-history
document, linking it to the owning account's storage identifier. -/
structure AccountRelData where
  _id : String
  _type : String
  deriving DecidableEq, Repr

/-- The `metadata` sub-object of a balance-history document. -/
structure BHMetadata where
  version : Nat
  deriving DecidableEq, Repr

/-- A `io.cozy.bank.balancehistories` document. `_id` is the storage
identifier assigned by the Cozy stack; a document freshly built by
`getEmptyBalanceHistory` has none. `balances` maps `YYYY-MM-DD` date strings
to the balance observed that day. -/
structure BalanceHistory where
  _id : Option String
  year : Nat
  balances : List (String × Int)
  metadata : BHMetadata
  relationships_account_data : AccountRelData
  deriving DecidableEq, Repr

/-- `getEmptyBalanceHistory(year, accountId)` from `src/index.js`: the fresh
document synthesized when the lookup finds nothing. -/
def getEmptyBalanceHistory (year : Nat) (accountId : String) : BalanceHistory :=
  { _id := none
    year := year
    balances := []
    metadata := { version := 1 }
    relationships_account_data := { _id := accountId, _type := "io.cozy.bank.accounts" } }

/-- The mango selector `{ year, 'relationships.account.data._id': accountId }`
used by `getBalanceHistory`. -/
def matchesSelector (year : Nat) (accountId : String) (doc : BalanceHistory) : Bool :=
  doc.year = year && doc.relationships_account_data._id = accountId

/-- `cozyClient.data.query` on the balance-history index: the stored
documents matching the selector, truncated to `limit`. -/
def queryBalanceHistories (store : List BalanceHistory) (year : Nat) (accountId : String)
    (limit : Nat) : List BalanceHistory :=
  (store.filter (matchesSelector year accountId)).take limit

/-- `getBalanceHistory(year, accountId)` from `src/index.js`: query with
`limit: 1`, destructure the first result (`const [balance] = ...`), fall back
to a fresh empty document. -/
def getBalanceHistory (store : List BalanceHistory) (year : Nat) (accountId : String) :
    BalanceHistory :=
  match queryBalanceHistories store year accountId 1 with
  | doc :: _ => doc
  | [] => getEmptyBalanceHistory year accountId

/-- The merge step of `fetchBalances`:
`history.balances[todayAsString] = account.balance`. -/
def mergeBalance (history : BalanceHistory) (todayAsString : String) (balance : Int) :
    BalanceHistory :=
  { history with balances := objSet history.balances todayAsString balance }

/-- A persisted account as `fetchBalances` consumes it: the reconciliator's
output, carrying the storage identifier `_id` and the normalized fields. -/
structure PersistedAccount where
  _id : String
  label : String
  institutionLabel : String
  balance : Int
  type : String
  number : String
  vendorId : String
  deriving DecidableEq, Repr

/-- `fetchBalances(accounts)` from `src/index.js`, the clock passed
explicitly: for each account, load (or create) the current year's document
and write today's balance into it. -/
def fetchBalances (store : List BalanceHistory) (currentYear : Nat) (todayAsString : String)
    (accounts : List PersistedAccount) : List BalanceHistory :=
  accounts.map (fun account =>
    mergeBalance (getBalanceHistory store currentYear account._id) todayAsString account.balance)

/-- One step of `updateOrCreate(balances, 'io.cozy.bank.balancehistories',
['_id'])`: a document carrying the `_id` of a stored one replaces it, any
other document is created. -/
def upsertOne (store : List BalanceHistory) (doc : BalanceHistory) : List BalanceHistory :=
  match doc._id with
  | none => store ++ [doc]
  | some i =>
    if store.any (fun d => d._id = some i) then
      store.map (fun d => if d._id = some i then doc else d)
    else
      store ++ [doc]

/-- `saveBalances(balances)` from `src/index.js`: upsert every merged
document into the store. -/
def saveBalances (store : List BalanceHistory) (docs : List BalanceHistory) :
    List BalanceHistory :=
  docs.foldl upsertOne store

/-! ## Normalizers (`formatBanks`, `formatAccounts`, `formatOperations`)

The mapping tables `account-type-mapping` and `operation-category-mapping`
are static data files required by `src/index.js`; they are passed as
parameters here, standing for the module-level bindings the source reads. -/

/-- A bank descriptor as returned by the `/v2/banks` endpoint. -/
structure RawBank where
  id : Nat
  name : String
  deriving DecidableEq, Repr

/-- A `parent_banks` entry of a `/v2/banks` country resource. -/
structure RawParentBank where
  banks : List RawBank
  deriving DecidableEq, Repr

/-- A country resource of the `/v2/banks` response. -/
structure RawCountry where
  parent_banks : List RawParentBank
  deriving DecidableEq, Repr

/-- `formatBanks(countries)` from `src/index.js`: flatten the country /
parent-bank / bank nesting into a `bank.id`-keyed lookup object. -/
def formatBanks (countries : List RawCountry) : List (Nat × RawBank) :=
  countries.foldl (fun m country =>
    country.parent_banks.foldl (fun m parentBank =>
      parentBank.banks.foldl (fun m bank => objSet m bank.id bank) m) m) []

/-- The `bank` sub-object of a raw account record. -/
structure RawAccountBank where
  id : Nat
  deriving DecidableEq, Repr

/-- A raw account record from the `/v2/accounts` endpoint, restricted to the
fields `formatAccounts` reads. -/
structure RawAccount where
  name : String
  balance : Int
  type : String
  id : String
  bank : RawAccountBank
  deriving DecidableEq, Repr

/-- A normalized account, as `formatAccounts` produces it. -/
structure Account where
  label : String
  institutionLabel : String
  balance : Int
  type : String
  number : String
  vendorId : String
  deriving DecidableEq, Repr

/-- The per-account body of `formatAccounts` from `src/index.js`:
`institutionLabel` falls back to `'none'` when the bank id is not in the
bank lookup table, `type` falls back to `'none'` when the raw type has no
entry in the account-type mapping. -/
def formatAccount (banks : List (Nat × RawBank)) (accountTypeMapping : List (String × String))
    (account : RawAccount) : Account :=
  { label := account.name
    institutionLabel :=
      match objGet banks account.bank.id with
      | some bank => bank.name
      | none => "none"
    balance := account.balance
    type :=
      match objGet accountTypeMapping account.type with
      | some t => t
      | none => "none"
    number := account.id
    vendorId := account.id }

/-- `formatAccounts(accounts)` from `src/index.js`. -/
def formatAccounts (banks : List (Nat × RawBank)) (accountTypeMapping : List (String × String))
    (accounts : List RawAccount) : List Account :=
  accounts.map (formatAccount banks accountTypeMapping)

/-- The `category` sub-object of a raw transaction record. -/
structure RawOperationCategory where
  id : Nat
  deriving DecidableEq, Repr

/-- The `account` sub-object of a raw transaction record. -/
structure RawOperationAccount where
  id : String
  deriving DecidableEq, Repr

/-- A raw transaction record from the `/v2/accounts/:id/transactions`
endpoint, restricted to the fields `formatOperations` reads. -/
structure RawOperation where
  id : String
  date : String
  description : String
  raw_description : String
  currency_code : String
  amount : Int
  category : RawOperationCategory
  account : RawOperationAccount
  deriving DecidableEq, Repr

/-- An entry of the `operation-category-mapping` table: the source reads its
`cozyCategoryId` field. -/
structure CategoryMapEntry where
  cozyCategoryId : Nat
  deriving DecidableEq, Repr

/-- A normalized banking operation, as `formatOperations` produces it.
`dateImport` is `new Date()` at normalization time, passed explicitly. -/
structure Operation where
  date : String
  label : String
  originalLabel : String
  type : String
  automaticCategoryId : Nat
  dateImport : String
  dateOperation : String
  currency : String
  vendorAccountId : String
  vendorId : String
  amount : Int
  deriving DecidableEq, Repr

/-- The per-operation body of `formatOperations` from `src/index.js`:
`automaticCategoryId` is the mapped `cozyCategoryId` when the vendor
category id has an entry in the mapping table, `0` otherwise. -/
def formatOperation (operationCategoryMapping : List (Nat × CategoryMapEntry))
    (importDate : String) (operation : RawOperation) : Operation :=
  { date := operation.date
    label := operation.description
    originalLabel := operation.raw_description
    type := "none"
    automaticCategoryId :=
      match objGet operationCategoryMapping operation.category.id with
      | some entry => entry.cozyCategoryId
      | none => 0
    dateImport := importDate
    dateOperation := operation.date
    currency := operation.currency_code
    vendorAccountId := operation.account.id
    vendorId := operation.id
    amount := operation.amount }

/-- `formatOperations(operations)` from `src/index.js`. -/
def formatOperations (operationCategoryMapping : List (Nat × CategoryMapEntry))
    (importDate : String) (operations : List RawOperation) : List Operation :=
  operations.map (formatOperation operationCategoryMapping importDate)

/-! ## Fetch operations and errors -/

/-- A failure of the underlying `request` call, as the `catch` blocks of
`src/index.js` receive it: the credentials may have been rejected, or the
request may have failed for any other reason (network error, non-2xx
response from the vendor, ...). The source's catch blocks do not inspect
the error. -/
inductive RequestError
  | invalidCredentials
  | vendorUnavailable
  deriving DecidableEq, Repr

/-- The konnector error identifiers thrown by `src/index.js`:
`errors.LOGIN_FAILED` and `errors.VENDOR_DOWN`. -/
inductive KonnectorError
  | loginFailed
  | vendorDown
  deriving DecidableEq, Repr

/-- The token response of `/v2/authenticate`; `start` reads its
`access_token` field. -/
structure Tokens where
  access_token : String
  deriving DecidableEq, Repr

/-- `authenticate(fields)` from `src/index.js`: resolve with the response of
the POST to `/v2/authenticate`; on ANY request error, throw
`new Error(errors.LOGIN_FAILED)`. -/
def authenticate (requestResult : Except RequestError Tokens) :
    Except KonnectorError Tokens :=
  match requestResult with
  | .ok response => .ok response
  | .error _ => .error .loginFailed

/-- `fetchBanks(fields)` from `src/index.js`: format the `/v2/banks`
resources, throwing `VENDOR_DOWN` on any request error. -/
def fetchBanks (requestResult : Except RequestError (List RawCountry)) :
    Except KonnectorError (List (Nat × RawBank)) :=
  match requestResult with
  | .ok resources => .ok (formatBanks resources)
  | .error _ => .error .vendorDown

/-- `fetchAccounts(fields)` from `src/index.js`: format the `/v2/accounts`
resources, throwing `VENDOR_DOWN` on any request error. -/
def fetchAccounts (banks : List (Nat × RawBank))
    (accountTypeMapping : List (String × String))
    (requestResult : Except RequestError (List RawAccount)) :
    Except KonnectorError (List Account) :=
  match requestResult with
  | .ok resources => .ok (formatAccounts banks accountTypeMapping resources)
  | .error _ => .error .vendorDown

/-- `fetchOperations(fields, account)` from `src/index.js`: format the
transactions of one account, throwing `VENDOR_DOWN` on any request error. -/
def fetchOperations (operationCategoryMapping : List (Nat × CategoryMapEntry))
    (importDate : String)
    (requestResult : Except RequestError (List RawOperation)) :
    Except KonnectorError (List Operation) :=
  match requestResult with
  | .ok resources => .ok (formatOperations operationCategoryMapping importDate resources)
  | .error _ => .error .vendorDown

/-! ## The reconciliator (modelled from the spec) -/

/-- Modelled from the spec: a fresh storage identifier for the `n`-th record
of a batch. The identifier-allocation scheme of the Persistence Sink is
outside this repository's source; the claims only rely on new records
getting some identifier. -/
def allocatedId (n : Nat) : String :=
  "created-" ++ toString n

/-- Modelled from the spec: the output of `BankingReconciliator.save` —
persisted accounts with storage identifiers resolved, persisted
transactions, and the per-record orphan-reference error report. -/
structure ReconciliationResult where
  accounts : List PersistedAccount
  operations : List Operation
  orphans : List Operation
  deriving Repr

/-- Modelled from the spec: the reconciliator's account matching rule — an
incoming account matching an existing persisted record by `vendorId`
equality reuses its storage identifier and overwrites the mutable fields;
an unmatched one gets a newly allocated identifier. -/
def reconcileAccount (existingAccounts : List PersistedAccount) (n : Nat) (a : Account) :
    PersistedAccount :=
  match existingAccounts.find? (fun e => e.vendorId = a.vendorId) with
  | some e =>
    { _id := e._id, label := a.label, institutionLabel := a.institutionLabel,
      balance := a.balance, type := a.type, number := a.number, vendorId := a.vendorId }
  | none =>
    { _id := allocatedId n, label := a.label, institutionLabel := a.institutionLabel,
      balance := a.balance, type := a.type, number := a.number, vendorId := a.vendorId }

/-- Modelled from the spec: a transaction is an orphan when its
`vendorAccountId` matches no input account's `vendorId`. -/
def isOrphan (accounts : List Account) (op : Operation) : Bool :=
  accounts.all (fun a => a.vendorId ≠ op.vendorAccountId)

/-- Modelled from the spec: merging an incoming transaction with the
previously persisted transaction of the same `vendorId` — mutable fields
take the incoming values, while `dateImport` keeps the value set at the
first successful import; a transaction never imported before keeps the
incoming `dateImport`. -/
def mergeOperation (existingOperations : List Operation) (op : Operation) : Operation :=
  match existingOperations.find? (fun e => e.vendorId = op.vendorId) with
  | some e => { op with dateImport := e.dateImport }
  | none => op

/-- Modelled from the spec: `BankingReconciliator.save(accounts,
allOperations)` of the `cozy-doctypes` dependency, whose implementation is
not part of this repository's source. Accounts are matched by `vendorId`;
transactions referencing an unknown account are reported as orphans and
excluded from the persisted output, the others are merged against the
previously persisted transaction of the same `vendorId`. -/
def reconciliatorSave (existingAccounts : List PersistedAccount)
    (existingOperations : List Operation) (accounts : List Account)
    (operations : List Operation) : ReconciliationResult :=
  { accounts := accounts.enum.map (fun p => reconcileAccount existingAccounts p.1 p.2)
    operations :=
      (operations.filter (fun op => !(isOrphan accounts op))).map
        (mergeOperation existingOperations)
    orphans := operations.filter (isOrphan accounts) }

/-! ## The run pipeline (`start`) -/

/-- The environment of one sync run: the results the external collaborators
(source API, clock, persistence layer) hand to the pipeline. -/
structure Env where
  authResult : Except RequestError Tokens
  banksResult : Except RequestError (List RawCountry)
  accountsResult : Except RequestError (List RawAccount)
  operationsFor : String → Except RequestError (List RawOperation)
  accountTypeMapping : List (String × String)
  operationCategoryMapping : List (Nat × CategoryMapEntry)
  importDate : String
  todayAsString : String
  currentYear : Nat
  existingAccounts : List PersistedAccount
  existingOperations : List Operation
  balanceStore : List BalanceHistory

/-- What a completed run has produced and persisted. -/
structure RunResult where
  savedAccounts : List PersistedAccount
  savedOperations : List Operation
  orphans : List Operation
  balanceStoreAfter : List BalanceHistory

/-- The per-account fetch loop of `start`: fetch each account's operations
sequentially and concatenate them in account order. -/
def fetchAllOperations (env : Env) : List Account → Except KonnectorError (List Operation)
  | [] => .ok []
  | account :: rest => do
    let operations ← fetchOperations env.operationCategoryMapping env.importDate
      (env.operationsFor account.vendorId)
    let restOperations ← fetchAllOperations env rest
    .ok (operations ++ restOperations)

/-- `start(fields)` from `src/index.js`: authenticate, fetch banks, accounts
and operations, reconcile, merge and persist the balance histories. Any
error thrown along the way aborts the run and becomes its result. -/
def start (env : Env) : Except KonnectorError RunResult := do
  let _tokens ← authenticate env.authResult
  let banks ← fetchBanks env.banksResult
  let accounts ← fetchAccounts banks env.accountTypeMapping env.accountsResult
  let allOperations ← fetchAllOperations env accounts
  let reconciled := reconciliatorSave env.existingAccounts env.existingOperations
    accounts allOperations
  let balances := fetchBalances env.balanceStore env.currentYear env.todayAsString
    reconciled.accounts
  let storeAfter := saveBalances env.balanceStore balances
  .ok { savedAccounts := reconciled.accounts, savedOperations := reconciled.operations,
        orphans := reconciled.orphans, balanceStoreAfter := storeAfter }

/-! ## Concrete sample data for the witnesses -/

/-- A relationship record pointing at account storage id `S1`. -/
def sampleRelS1 : AccountRelData :=
  { _id := "S1", _type := "io.cozy.bank.accounts" }

/-- A stored 2024 balance-history document for account `S1`. -/
def sampleDoc2024 : BalanceHistory :=
  { _id := some "b2024", year := 2024, balances := [("2024-01-01", 90)],
    metadata := { version := 1 }, relationships_account_data := sampleRelS1 }

/-- A stored 2025 balance-history document for account `S1`. -/
def sampleDoc2025 : BalanceHistory :=
  { _id := some "b2025", year := 2025, balances := [],
    metadata := { version := 1 }, relationships_account_data := sampleRelS1 }

/-- A store holding one 2024 and one 2025 document for account `S1`. -/
def sampleStore : List BalanceHistory :=
  [sampleDoc2024, sampleDoc2025]

/-- A persisted account with storage id `S1` and balance 100. -/
def samplePersistedAccount : PersistedAccount :=
  { _id := "S1", label := "Main", institutionLabel := "Big Bank", balance := 100,
    type := "bank", number := "A1", vendorId := "A1" }

/-- A category mapping knowing only vendor category 1. -/
def sampleCategoryMapping : List (Nat × CategoryMapEntry) :=
  [(1, { cozyCategoryId := 400 })]

/-- A raw transaction whose vendor category 999 is unknown to
`sampleCategoryMapping`. -/
def sampleRawOperation : RawOperation :=
  { id := "t1", date := "2024-06-14", description := "coffee",
    raw_description := "COFFEE SHOP", currency_code := "EUR", amount := -3,
    category := { id := 999 }, account := { id := "A1" } }

/-- A bank lookup table knowing only bank id 7. -/
def sampleBanksTable : List (Nat × RawBank) :=
  [(7, { id := 7, name := "Big Bank" })]

/-- An account-type mapping knowing only the raw type `checking`. -/
def sampleTypeMapping : List (String × String) :=
  [("checking", "bank")]

/-- A raw account whose type and bank id are unknown to the tables. -/
def sampleRawAccount : RawAccount :=
  { name := "Weird", balance := 5, type := "exotic", id := "A9",
    bank := { id := 42 } }

/-- A normalized account with vendor id `A1`. -/
def sampleNormalizedAccount : Account :=
  { label := "Main", institutionLabel := "Big Bank", balance := 100,
    type := "bank", number := "A1", vendorId := "A1" }

/-- A previously persisted transaction `t1`, first imported on
2024-01-03. -/
def sampleExistingOperation : Operation :=
  { date := "2024-01-02", label := "old", originalLabel := "OLD", type := "none",
    automaticCategoryId := 0, dateImport := "2024-01-03",
    dateOperation := "2024-01-02", currency := "EUR", vendorAccountId := "A1",
    vendorId := "t1", amount := -3 }

/-- The transaction `t1` as fetched again on 2024-06-15. -/
def sampleIncomingOperation : Operation :=
  { date := "2024-01-02", label := "new label", originalLabel := "NEW LABEL",
    type := "none", automaticCategoryId := 400, dateImport := "2024-06-15",
    dateOperation := "2024-01-02", currency := "EUR", vendorAccountId := "A1",
    vendorId := "t1", amount := -3 }

/-- A transaction referencing the unknown account `ZZ`. -/
def sampleOrphanOperation : Operation :=
  { date := "2024-01-02", label := "stray", originalLabel := "STRAY",
    type := "none", automaticCategoryId := 0, dateImport := "2024-06-15",
    dateOperation := "2024-01-02", currency := "EUR", vendorAccountId := "ZZ",
    vendorId := "t9", amount := -8 }

/-- An environment whose authentication request fails on rejected
credentials; the remaining collaborators are benign. -/
def sampleBadAuthEnv : Env :=
  { authResult := Except.error RequestError.invalidCredentials
    banksResult := Except.ok []
    accountsResult := Except.ok []
    operationsFor := fun _ => Except.ok []
    accountTypeMapping := []
    operationCategoryMapping := []
    importDate := "2024-06-15"
    todayAsString := "2024-06-15"
    currentYear := 2024
    existingAccounts := []
    existingOperations := []
    balanceStore := [] }

/-! ## Helper lemmas -/

theorem objSet_idem {α β : Type} [DecidableEq α] (l : List (α × β)) (k : α) (v : β) :
    objSet (objSet l k v) k v = objSet l k v := by
  induction l with
  | nil => simp [objSet]
  | cons hd tl ih =>
    obtain ⟨k', v'⟩ := hd
    by_cases h : k' = k
    · simp [objSet, h]
    · simp [objSet, h, ih]

theorem objGet_objSet_ne {α β : Type} [DecidableEq α] (l : List (α × β)) (k d : α) (v : β)
    (hne : d ≠ k) : objGet (objSet l k v) d = objGet l d := by
  induction l with
  | nil => simp [objSet, objGet, List.find?, hne, Ne.symm hne]
  | cons hd tl ih =>
    obtain ⟨k', v'⟩ := hd
    by_cases h : k' = k
    · subst h
      simp [objSet, objGet, List.find?, Ne.symm hne]
    · by_cases h' : k' = d
      · subst h'
        simp [objSet, objGet, List.find?, h]
      · simpa [objSet, objGet, List.find?, h, h'] using ih

theorem objGet_objSet_self {α β : Type} [DecidableEq α] (l : List (α × β)) (k : α) (v : β) :
    objGet (objSet l k v) k = some v := by
  induction l with
  | nil => simp [objSet, objGet, List.find?]
  | cons hd tl ih =>
    obtain ⟨k', v'⟩ := hd
    by_cases h : k' = k
    · simp [objSet, objGet, List.find?, h]
    · simpa [objSet, objGet, List.find?, h] using ih

/-- The document `getBalanceHistory` returns always has the queried year,
and its `_id` is either absent (fresh document) or the `_id` of a stored
document whose year is the queried year. -/
theorem getBalanceHistory_year_and_id (store : List BalanceHistory) (year : Nat)
    (sid : String) :
    (getBalanceHistory store year sid).year = year ∧
      ((getBalanceHistory store year sid)._id = none ∨
        ∃ s, s ∈ store ∧ s.year = year ∧ s._id = (getBalanceHistory store year sid)._id) := by
  cases hf : store.filter (matchesSelector year sid) with
  | nil =>
    simp [getBalanceHistory, queryBalanceHistories, hf, getEmptyBalanceHistory]
  | cons d0 rest =>
    have hmem : d0 ∈ store.filter (matchesSelector year sid) := by
      rw [hf]; exact List.mem_cons_self d0 rest
    rw [List.mem_filter] at hmem
    have hyear : d0.year = year := by
      have := hmem.2
      simp [matchesSelector] at this
      exact this.1
    constructor
    · simp [getBalanceHistory, queryBalanceHistories, hf, hyear]
    · right
      exact ⟨d0, hmem.1, hyear, by simp [getBalanceHistory, queryBalanceHistories, hf]⟩

/-- `upsertOne` keeps a stored document untouched when the incoming document
is fresh or carries a different storage identifier. -/
theorem mem_upsertOne (store : List BalanceHistory) (doc d : BalanceHistory)
    (hd : d ∈ store) (hid : doc._id = none ∨ doc._id ≠ d._id) :
    d ∈ upsertOne store doc := by
  match hdoc : doc._id with
  | none =>
    simp only [upsertOne, hdoc]
    exact List.mem_append_left _ hd
  | some i =>
    have hne : ¬ d._id = some i := by
      rcases hid with h | h
      · rw [hdoc] at h; cases h
      · rw [hdoc] at h
        intro hcontra
        exact h hcontra.symm
    simp only [upsertOne, hdoc]
    by_cases hany : store.any (fun x => x._id = some i)
    · simp only [hany, if_true]
      have : (fun x => if x._id = some i then doc else x) d = d := by
        simp [hne]
      rw [← this]
      exact List.mem_map_of_mem _ hd
    · simp only [hany, if_false]
      exact List.mem_append_left _ hd

/-- `saveBalances` keeps a stored document untouched when no incoming
document carries its storage identifier. -/
theorem mem_saveBalances (docs : List BalanceHistory) (store : List BalanceHistory)
    (d : BalanceHistory) (hd : d ∈ store)
    (hids : ∀ doc ∈ docs, doc._id = none ∨ doc._id ≠ d._id) :
    d ∈ saveBalances store docs := by
  induction docs generalizing store with
  | nil => exact hd
  | cons doc rest ih =>
    have hstep : d ∈ upsertOne store doc :=
      mem_upsertOne store doc d hd (hids doc (List.mem_cons_self doc rest))
    exact ih (upsertOne store doc) hstep
      (fun x hx => hids x (List.mem_cons_of_mem doc hx))

/-- `mergeOperation` only touches `dateImport`: the vendor identifiers of
the merged transaction are the incoming ones. -/
theorem mergeOperation_ids (existingOperations : List Operation) (op : Operation) :
    (mergeOperation existingOperations op).vendorAccountId = op.vendorAccountId ∧
      (mergeOperation existingOperations op).vendorId = op.vendorId := by
  unfold mergeOperation
  cases existingOperations.find? (fun e => e.vendorId = op.vendorId) <;> simp

/-! ## The claims -/

/-- C1: Balance merge is idempotent — for every balance-history document,
every balance and every fixed current date, applying the merge step
(`balances[todayKey] = account.balance`) twice produces the same balances
map as applying it once. -/
theorem mergeBalance_idempotent (history : BalanceHistory) (todayAsString : String)
    (balance : Int) :
    mergeBalance (mergeBalance history todayAsString balance) todayAsString balance =
      mergeBalance history todayAsString balance := by
  simp [mergeBalance, objSet_idem]

/-- C2: Frame property of the merge step — for every date key `d` different
from today's key, merging leaves `balances[d]` unchanged, and no field of
the document other than the `balances` entry for today's key is changed
(today's entry itself becomes the merged balance). -/
theorem mergeBalance_frame (history : BalanceHistory) (todayAsString : String)
    (balance : Int) (d : String) (hd : d ≠ todayAsString) :
    objGet (mergeBalance history todayAsString balance).balances d =
        objGet history.balances d ∧
      (mergeBalance history todayAsString balance)._id = history._id ∧
      (mergeBalance history todayAsString balance).year = history.year ∧
      (mergeBalance history todayAsString balance).metadata = history.metadata ∧
      (mergeBalance history todayAsString balance).relationships_account_data =
        history.relationships_account_data ∧
      objGet (mergeBalance history todayAsString balance).balances todayAsString =
        some balance := by
  refine ⟨?_, rfl, rfl, rfl, rfl, ?_⟩
  · simp [mergeBalance, objGet_objSet_ne _ _ _ _ hd]
  · simp [mergeBalance, objGet_objSet_self]

/-- Witness for C2 at a concrete document and date. -/
theorem mergeBalance_frame_witness :
    objGet (mergeBalance sampleDoc2024 "2024-06-15" 100).balances "2024-01-01" =
      objGet sampleDoc2024.balances "2024-01-01" :=
  (mergeBalance_frame sampleDoc2024 "2024-06-15" 100 "2024-01-01" (by decide)).1

/-- C3: Year isolation — a run whose current year differs from a stored
document's year never modifies that document: it survives the whole
merge-and-persist step unchanged. The lookup's selector only matches
documents of the current year, and every merged document (the ones
persisted) has the current year, so a run in a new year creates a sibling
document rather than mutating the prior year's. -/
theorem year_isolation (store : List BalanceHistory) (currentYear : Nat)
    (todayAsString : String) (accounts : List PersistedAccount) (d : BalanceHistory)
    (hinj : ∀ d1 ∈ store, ∀ d2 ∈ store, d1._id ≠ none → d1._id = d2._id → d1 = d2)
    (hd : d ∈ store) (hy : d.year ≠ currentYear) :
    d ∈ saveBalances store (fetchBalances store currentYear todayAsString accounts) ∧
      (∀ sid : String, ∀ doc ∈ store.filter (matchesSelector currentYear sid),
        doc.year = currentYear) ∧
      (∀ doc ∈ fetchBalances store currentYear todayAsString accounts,
        doc.year = currentYear) := by
  have hmerged : ∀ doc ∈ fetchBalances store currentYear todayAsString accounts,
      doc.year = currentYear ∧
        (doc._id = none ∨ ∃ s, s ∈ store ∧ s.year = currentYear ∧ s._id = doc._id) := by
    intro doc hdoc
    rw [fetchBalances, List.mem_map] at hdoc
    obtain ⟨a, _, rfl⟩ := hdoc
    have hspec := getBalanceHistory_year_and_id store currentYear a._id
    exact ⟨hspec.1, hspec.2⟩
  refine ⟨?_, ?_, fun doc hdoc => (hmerged doc hdoc).1⟩
  · apply mem_saveBalances _ _ _ hd
    intro doc hdoc
    obtain ⟨-, hid⟩ := hmerged doc hdoc
    rcases hid with hnone | ⟨s, hs, hsy, hsid⟩
    · exact Or.inl hnone
    · match hdocid : doc._id with
      | none => exact Or.inl rfl
      | some i =>
        right
        intro hcontra
        have hsd : s = d := hinj s hs d hd
          (by rw [hsid, hdocid]; exact Option.some_ne_none i)
          (hsid.trans (hdocid.trans hcontra))
        rw [hsd] at hsy
        exact hy hsy
  · intro sid doc hdoc
    rw [List.mem_filter] at hdoc
    have := hdoc.2
    simp [matchesSelector] at this
    exact this.1

/-- Witness for C3: a store holding a 2024 and a 2025 document for account
`S1`; a 2025 run leaves the 2024 document in the store untouched. -/
theorem year_isolation_witness :
    sampleDoc2024 ∈
      saveBalances sampleStore
        (fetchBalances sampleStore 2025 "2025-06-15" [samplePersistedAccount]) :=
  (year_isolation sampleStore 2025 "2025-06-15" [samplePersistedAccount] sampleDoc2024
    (by decide) (by decide) (by decide)).1

/-- C4: Create-if-absent — when the lookup finds no document for
`(year, accountStorageId)`, the merger synthesizes a fresh document of
exactly the shape `{ year, balances: {}, metadata: { version: 1 },
relationship → account storage id }`, so a subsequent merge of balance `b`
on date `d` yields a document with that year, the single balances entry
`d ↦ b` and `metadata.version = 1`, and persisting adds it to the store. -/
theorem create_if_absent (store : List BalanceHistory) (year : Nat) (sid : String)
    (d : String) (b : Int)
    (habs : store.filter (matchesSelector year sid) = []) :
    getBalanceHistory store year sid = getEmptyBalanceHistory year sid ∧
      mergeBalance (getEmptyBalanceHistory year sid) d b =
        { _id := none, year := year, balances := [(d, b)], metadata := { version := 1 },
          relationships_account_data :=
            { _id := sid, _type := "io.cozy.bank.accounts" } } ∧
      mergeBalance (getEmptyBalanceHistory year sid) d b ∈
        saveBalances store [mergeBalance (getEmptyBalanceHistory year sid) d b] := by
  refine ⟨?_, rfl, ?_⟩
  · simp [getBalanceHistory, queryBalanceHistories, habs]
  · simp [saveBalances, upsertOne, mergeBalance, getEmptyBalanceHistory]

/-- Witness for C4: the spec's end-to-end scenario — empty store, run date
2025-01-01, balance 50 for account `S2`. -/
theorem create_if_absent_witness :
    getBalanceHistory [] 2025 "S2" = getEmptyBalanceHistory 2025 "S2" ∧
      mergeBalance (getEmptyBalanceHistory 2025 "S2") "2025-01-01" 50 =
        { _id := none, year := 2025, balances := [("2025-01-01", 50)],
          metadata := { version := 1 },
          relationships_account_data :=
            { _id := "S2", _type := "io.cozy.bank.accounts" } } ∧
      mergeBalance (getEmptyBalanceHistory 2025 "S2") "2025-01-01" 50 ∈
        saveBalances [] [mergeBalance (getEmptyBalanceHistory 2025 "S2") "2025-01-01" 50] :=
  create_if_absent [] 2025 "S2" "2025-01-01" 50 (by decide)

/-- C5: The lookup queries by `(year, account storage id)` equality with
`limit: 1` — the query returns at most one document — and when several
stored documents match the selector only the first one is used: the result
is the head of the filtered store (or a fresh empty document when nothing
matches), extras neither fail the lookup nor get merged. -/
theorem getBalanceHistory_first_match (store : List BalanceHistory) (year : Nat)
    (sid : String) :
    (getBalanceHistory store year sid =
        match (store.filter (matchesSelector year sid)).head? with
        | some doc => doc
        | none => getEmptyBalanceHistory year sid) ∧
      (queryBalanceHistories store year sid 1).length ≤ 1 := by
  constructor
  · cases hf : store.filter (matchesSelector year sid) with
    | nil => simp [getBalanceHistory, queryBalanceHistories, hf]
    | cons d0 rest => simp [getBalanceHistory, queryBalanceHistories, hf]
  · simp only [queryBalanceHistories]
    exact List.length_take_le 1 _

/-- C6: Category fallback — every raw transaction is normalized (its image
is in the output), a transaction whose vendor category id has no entry in
the operation-category mapping gets `automaticCategoryId = 0`, and one whose
category id has an entry gets that entry's `cozyCategoryId`. The field is a
total `Nat`, never undefined. -/
theorem formatOperations_category_fallback
    (operationCategoryMapping : List (Nat × CategoryMapEntry)) (importDate : String)
    (operations : List RawOperation) (op : RawOperation) (hop : op ∈ operations) :
    formatOperation operationCategoryMapping importDate op ∈
        formatOperations operationCategoryMapping importDate operations ∧
      (objGet operationCategoryMapping op.category.id = none →
        (formatOperation operationCategoryMapping importDate op).automaticCategoryId = 0) ∧
      (∀ entry, objGet operationCategoryMapping op.category.id = some entry →
        (formatOperation operationCategoryMapping importDate op).automaticCategoryId =
          entry.cozyCategoryId) := by
  refine ⟨List.mem_map_of_mem _ hop, ?_, ?_⟩
  · intro hnone
    simp [formatOperation, hnone]
  · intro entry hentry
    simp [formatOperation, hentry]

/-- Witness for C6: a one-element batch whose category id 999 is absent from
a mapping that only knows id 1; the normalized operation carries category 0. -/
theorem formatOperations_category_fallback_witness :
    formatOperation sampleCategoryMapping "2024-06-15" sampleRawOperation ∈
        formatOperations sampleCategoryMapping "2024-06-15" [sampleRawOperation] ∧
      (formatOperation sampleCategoryMapping "2024-06-15"
        sampleRawOperation).automaticCategoryId = 0 :=
  ⟨(formatOperations_category_fallback sampleCategoryMapping "2024-06-15"
      [sampleRawOperation] sampleRawOperation (List.mem_singleton.mpr rfl)).1,
   (formatOperations_category_fallback sampleCategoryMapping "2024-06-15"
      [sampleRawOperation] sampleRawOperation (List.mem_singleton.mpr rfl)).2.1
      (by decide)⟩

/-- C7 counterexample: `LoginFailed` is not raised exactly on invalid
credentials — the `catch` block of `authenticate` converts EVERY request
failure into `errors.LOGIN_FAILED`, so a request failing while the
credentials were never rejected (e.g. the vendor being unavailable) still
surfaces as `LoginFailed`. -/
theorem authenticate_loginFailed_not_only_invalid :
    authenticate (Except.error RequestError.vendorUnavailable) =
        Except.error KonnectorError.loginFailed ∧
      RequestError.vendorUnavailable ≠ RequestError.invalidCredentials :=
  ⟨rfl, by decide⟩

/-- C7 (amended): `authenticate` fails with `LoginFailed` whenever the
underlying authentication request fails — invalid credentials included, but
also any other request failure — and this failure is fatal: `start`
surfaces the `LoginFailed` error verbatim as the run's result, performing
no further step. On success `authenticate` returns the token response
(carrying the access token) verbatim. -/
theorem authenticate_failure_fatal (env : Env) (e : RequestError) (r : Tokens)
    (he : env.authResult = Except.error e) :
    authenticate (Except.error e) = Except.error KonnectorError.loginFailed ∧
      authenticate (Except.ok r) = Except.ok r ∧
      start env = Except.error KonnectorError.loginFailed := by
  refine ⟨rfl, rfl, ?_⟩
  rw [start, he]
  rfl

/-- Witness for C7 (amended): the run aborts with `LoginFailed` on an
environment whose credentials are rejected. -/
theorem authenticate_failure_fatal_witness :
    start sampleBadAuthEnv = Except.error KonnectorError.loginFailed :=
  (authenticate_failure_fatal sampleBadAuthEnv RequestError.invalidCredentials
    { access_token := "tok" } rfl).2.2

/-- C8: `dateImport` is preserved — a transaction already persisted in a
previous run keeps, on every subsequent sync of the same `vendorId`, the
`dateImport` set at its first successful import: the merged transaction is
in the persisted output and its `dateImport` equals the previously
persisted one, not the freshly normalized value. -/
theorem reconciliatorSave_dateImport_preserved (existingAccounts : List PersistedAccount)
    (existingOperations : List Operation) (accounts : List Account)
    (operations : List Operation) (op e : Operation) (hop : op ∈ operations)
    (hno : isOrphan accounts op = false)
    (hfind : existingOperations.find? (fun x => x.vendorId = op.vendorId) = some e) :
    mergeOperation existingOperations op ∈
        (reconciliatorSave existingAccounts existingOperations accounts
          operations).operations ∧
      (mergeOperation existingOperations op).dateImport = e.dateImport ∧
      (mergeOperation existingOperations op).vendorId = op.vendorId := by
  refine ⟨?_, ?_, (mergeOperation_ids existingOperations op).2⟩
  · apply List.mem_map_of_mem
    rw [List.mem_filter]
    exact ⟨hop, by simp [hno]⟩
  · simp [mergeOperation, hfind]

/-- Witness for C8: re-syncing transaction `t1` keeps the `dateImport` of
its first import (2024-01-03), not the new run's import date. -/
theorem reconciliatorSave_dateImport_preserved_witness :
    mergeOperation [sampleExistingOperation] sampleIncomingOperation ∈
        (reconciliatorSave [samplePersistedAccount] [sampleExistingOperation]
          [sampleNormalizedAccount] [sampleIncomingOperation]).operations ∧
      (mergeOperation [sampleExistingOperation] sampleIncomingOperation).dateImport =
        sampleExistingOperation.dateImport :=
  ⟨(reconciliatorSave_dateImport_preserved [samplePersistedAccount]
      [sampleExistingOperation] [sampleNormalizedAccount] [sampleIncomingOperation]
      sampleIncomingOperation sampleExistingOperation (List.mem_singleton.mpr rfl)
      (by decide) (by decide)).1,
   (reconciliatorSave_dateImport_preserved [samplePersistedAccount]
      [sampleExistingOperation] [sampleNormalizedAccount] [sampleIncomingOperation]
      sampleIncomingOperation sampleExistingOperation (List.mem_singleton.mpr rfl)
      (by decide) (by decide)).2.1⟩

/-- C9: Orphan detection — a transaction whose `vendorAccountId` matches no
input account's `vendorId` is reported in the orphan list, and the
persisted output contains only transactions referencing a known account (so
the orphan is excluded from it); `reconciliatorSave` is a total function,
no exception terminates the batch. -/
theorem reconciliatorSave_orphans (existingAccounts : List PersistedAccount)
    (existingOperations : List Operation) (accounts : List Account)
    (operations : List Operation) (op : Operation) (hop : op ∈ operations)
    (horphan : isOrphan accounts op = true) :
    op ∈ (reconciliatorSave existingAccounts existingOperations accounts
        operations).orphans ∧
      ∀ saved ∈ (reconciliatorSave existingAccounts existingOperations accounts
          operations).operations,
        accounts.any (fun a => a.vendorId = saved.vendorAccountId) = true := by
  constructor
  · rw [reconciliatorSave, List.mem_filter]
    exact ⟨hop, horphan⟩
  · intro saved hsaved
    rw [reconciliatorSave] at hsaved
    simp only [List.mem_map] at hsaved
    obtain ⟨src, hsrcmem, rfl⟩ := hsaved
    rw [List.mem_filter] at hsrcmem
    have hfalse : isOrphan accounts src = false := by
      have := hsrcmem.2
      simp at this
      exact this
    have hex : ∃ a ∈ accounts, a.vendorId = src.vendorAccountId := by
      by_contra hc
      push_neg at hc
      have : isOrphan accounts src = true := by
        simp only [isOrphan, List.all_eq_true]
        intro a ha
        simp [hc a ha]
      rw [this] at hfalse
      cases hfalse
    obtain ⟨a, ha, heq⟩ := hex
    rw [(mergeOperation_ids existingOperations src).1]
    simp only [List.any_eq_true]
    exact ⟨a, ha, by simp [heq]⟩

/-- Witness for C9: the transaction referencing the unknown account `ZZ` is
reported as an orphan of the batch. -/
theorem reconciliatorSave_orphans_witness :
    sampleOrphanOperation ∈
      (reconciliatorSave [] [] [sampleNormalizedAccount]
        [sampleOrphanOperation]).orphans :=
  (reconciliatorSave_orphans [] [] [sampleNormalizedAccount] [sampleOrphanOperation]
    sampleOrphanOperation (List.mem_singleton.mpr rfl) (by decide)).1

/-- C10: Account normalization fallbacks — every raw account is normalized
(its image is in the output); a raw type code absent from the account-type
mapping yields `type = "none"`, a bank id absent from the bank lookup table
yields `institutionLabel = "none"`; both fields are total strings, never
undefined. -/
theorem formatAccounts_fallbacks (banks : List (Nat × RawBank))
    (accountTypeMapping : List (String × String)) (accounts : List RawAccount)
    (a : RawAccount) (ha : a ∈ accounts) :
    formatAccount banks accountTypeMapping a ∈
        formatAccounts banks accountTypeMapping accounts ∧
      (objGet accountTypeMapping a.type = none →
        (formatAccount banks accountTypeMapping a).type = "none") ∧
      (objGet banks a.bank.id = none →
        (formatAccount banks accountTypeMapping a).institutionLabel = "none") := by
  refine ⟨List.mem_map_of_mem _ ha, ?_, ?_⟩
  · intro hnone
    simp [formatAccount, hnone]
  · intro hnone
    simp [formatAccount, hnone]

/-- Witness for C10: one raw account whose type and bank id are unknown to
the tables; both normalized fields are the string `"none"`. -/
theorem formatAccounts_fallbacks_witness :
    (formatAccount sampleBanksTable sampleTypeMapping sampleRawAccount).type = "none" ∧
      (formatAccount sampleBanksTable sampleTypeMapping
        sampleRawAccount).institutionLabel = "none" :=
  ⟨(formatAccounts_fallbacks sampleBanksTable sampleTypeMapping [sampleRawAccount]
      sampleRawAccount (List.mem_singleton.mpr rfl)).2.1 (by decide),
   (formatAccounts_fallbacks sampleBanksTable sampleTypeMapping [sampleRawAccount]
      sampleRawAccount (List.mem_singleton.mpr rfl)).2.2 (by decide)⟩

end Bankin
